import Mathlib

/-!
Shallow embedding of the Lutris cover-art downloader (src/main.py).

The program is a linear pipeline: read configuration, open the Lutris
SQLite database, and for each game slug check the local cover cache,
conditionally query the SteamGridDB search and grids endpoints, download
the image bytes and write them to the cache directory.

External effects (HTTP transport, the filesystem, the SQLite library,
the interactive prompt) are modelled as oracle inputs; the functions
below mirror the control flow of the Python source line by line and
additionally return the list of observable events (network calls,
directory creation, file writes, log lines) the Python code performs.
-/

namespace Lutris

/-! ## Constants from the top of src/main.py -/

def API_KEY_FILE : String := "./apikey.txt"

def BANNER_DIMENSIONS : String := "460x215"

def VERTICAL_DIMENSIONS : String := "600x900"

def STEAMGRIDDB_API_BASE_URL : String := "https://www.steamgriddb.com/api/v2"

def COVER_ART_EXTENSIONS : List String := [".png", ".jpeg", ".jpg"]

def BANNER_CACHE_PATH_TEMPLATE (user : String) : String :=
  "/home/" ++ user ++ "/.cache/lutris/banners/"

def COVERART_CACHE_PATH_TEMPLATE (user : String) : String :=
  "/home/" ++ user ++ "/.cache/lutris/coverart/"

def LUTRIS_DB_PATH_TEMPLATE (user : String) : String :=
  "/home/" ++ user ++ "/.local/share/lutris/pga.db"

/-! ## Python string helpers used by the source -/

/-- Characters removed by Python str.strip with no argument
(space, tab, newline, carriage return, vertical tab, form feed). -/
def isPyWhitespace (c : Char) : Bool :=
  c.toNat == 32 || c.toNat == 9 || c.toNat == 10 ||
  c.toNat == 13 || c.toNat == 11 || c.toNat == 12

/-- Python str.strip(): remove leading and trailing whitespace. -/
def pyStrip (s : String) : String :=
  String.mk (((s.toList.dropWhile isPyWhitespace).reverse.dropWhile isPyWhitespace).reverse)

/-- Python str.replace applied to single characters. -/
def pyReplaceChar (s : String) (old new : Char) : String :=
  String.mk (s.toList.map (fun c => if c == old then new else c))

/-- Helper for pyTitle: the Bool records whether the previous character
was alphabetic (Python title() uppercases a letter that follows a
non-letter and lowercases the rest). -/
def pyTitleAux : Bool → List Char → List Char
  | _, [] => []
  | prevAlpha, c :: cs =>
    if c.isAlpha then
      (if prevAlpha then c.toLower else c.toUpper) :: pyTitleAux true cs
    else
      c :: pyTitleAux false cs

/-- Python str.title(). -/
def pyTitle (s : String) : String := String.mk (pyTitleAux false s.toList)

/-- The display-friendly form of a slug used in the log output of the
source: game_name.replace chr45 with a space, then title-cased. -/
def display_name (slug : String) : String := pyTitle (pyReplaceChar slug '-' ' ')

/-- Python truthiness of an optional string (None and the empty string
are falsy). -/
def pyFalsyStr : Option String → Bool
  | none => true
  | some s => s.isEmpty

/-- Whether a path string ends in the separator character. -/
def endsInSlash (a : String) : Bool :=
  match a.toList.getLast? with
  | some c => c == '/'
  | none => false

/-- os.path.join for the two-argument uses in the source: the cache
path templates end in a slash, but handle the general case. -/
def os_path_join (a b : String) : String :=
  if endsInSlash a then a ++ b else a ++ "/" ++ b

/-! ## Transport and filesystem model -/

/-- Outcome of a requests.get whose JSON body is inspected through
response.json().get PAREN data: either a transport error raised as a
RequestException, or a response with a status code and the optional
data field. -/
inductive ReqOutcome (α : Type)
  | netErr
  | resp (status : Nat) (data : Option α)
  deriving DecidableEq

/-- Outcome of the raw image download (body is the byte stream). -/
inductive ImgOutcome
  | netErr
  | resp (status : Nat) (body : String)
  deriving DecidableEq

/-- Outcome of the fixed validation request issued by test_api_key
(only the status code is inspected). -/
inductive TestOutcome
  | netErr
  | resp (status : Nat)
  deriving DecidableEq

/-- response.raise_for_status raises HTTPError exactly for 4xx and 5xx
status codes. -/
def is_http_error (status : Nat) : Bool :=
  decide (400 ≤ status) && decide (status < 600)

/-- Filesystem errors (OSError) that os.makedirs or the chunked file
write can raise. These are not RequestExceptions, so the except clause
in download_cover does not catch them. -/
inductive FsError
  | mkdirFail
  | writeFail
  deriving DecidableEq

/-- The cover cache directory, as an association list from full file
path to file contents. -/
abbrev Cache := List (String × String)

/-- os.path.isfile within the modelled cache. -/
def isfile (fs : Cache) (p : String) : Bool :=
  fs.any (fun e => e.1 == p)

/-- Writing a file: overwrite the entry if the path exists, otherwise
append it. -/
def writeFileRaw (fs : Cache) (p : String) (b : String) : Cache :=
  if isfile fs p then fs.map (fun e => if e.1 == p then (p, b) else e)
  else fs ++ [(p, b)]

/-- Observable events of a run: network calls, database connection,
directory creation, file writes and log lines (print calls). -/
inductive Event
  | searchCall (url : String)
  | gridsCall (url : String)
  | imageCall (url : String)
  | testCall
  | dbConnect
  | mkdir (path : String)
  | fileWrite (path : String) (bytes : String)
  | log (msg : String)
  deriving DecidableEq

/-- The remote service and the failure-injection state of the local
filesystem, fixed for a run: responses of the search endpoint keyed by
query slug, of the grids endpoint keyed by game id and dimensions, of
the public image URL, and whether os.makedirs or the file write raise. -/
structure World where
  searchResp : String → ReqOutcome (List Nat)
  gridsResp : Nat → String → ReqOutcome (List String)
  imageResp : String → ImgOutcome
  mkdirErr : Option FsError
  writeErr : Option FsError

/-! ## The functions of src/main.py -/

/-- get_cover_type: prompt answer none models user cancellation, in
which case the function returns the pair of None values; otherwise the
Banner and Vertical choices map to their dimensions and cache path. -/
def get_cover_type (user : String) (answer : Option String) :
    Option String × Option String :=
  match answer with
  | none => (none, none)
  | some cover_type =>
    if cover_type == "Banner" then
      (some BANNER_DIMENSIONS, some (BANNER_CACHE_PATH_TEMPLATE user))
    else
      (some VERTICAL_DIMENSIONS, some (COVERART_CACHE_PATH_TEMPLATE user))

/-- State of the API key file as seen by get_api_key_from_file:
missing, present but unreadable (IOError on read), or present with the
given raw content. -/
inductive ApiKeyFileState
  | absent
  | unreadable
  | content (s : String)
  deriving DecidableEq

/-- get_api_key_from_file: returns the Authorization header value when
the file is present and readable; the raw content is stripped and
prefixed with the word Bearer and a space. Note the content is not
checked for emptiness. -/
def get_api_key_from_file : ApiKeyFileState → Option String
  | .absent => none
  | .unreadable => none
  | .content s => some ("Bearer " ++ pyStrip s)

/-- save_api_key: overwrite the key file with the raw token; an IOError
is reported but leaves the previous state. Returns the new file state
and the events performed. -/
def save_api_key (api_key : String) (st : ApiKeyFileState) (writeOk : Bool) :
    ApiKeyFileState × List Event :=
  if writeOk then
    (.content api_key,
     [.fileWrite API_KEY_FILE api_key, .log "API key saved successfully."])
  else
    (st, [.log "Error: Could not save API key."])

/-- test_api_key: one GET to the fixed grids test URL; HTTPError from
raise_for_status (4xx and 5xx) and network errors are caught and yield
false; the function returns true only when the status code is exactly
200 and otherwise falls through to false. -/
def test_api_key (r : TestOutcome) : Bool :=
  match r with
  | .netErr => false
  | .resp status =>
    if is_http_error status then false
    else status == 200

/-- set_api_key: read a token interactively, strip it, reject empty
input, validate with test_api_key and save only when valid. Returns
the Authorization header value on success together with the events. -/
def set_api_key (inputStr : String) (testResp : TestOutcome)
    (keyFile : ApiKeyFileState) (saveOk : Bool) : Option String × List Event :=
  let api_key := pyStrip inputStr
  if api_key.isEmpty then
    (none, [.log "API key cannot be empty. Exiting."])
  else if test_api_key testResp then
    (some ("Bearer " ++ api_key),
     [.testCall, .log "API key is valid."] ++ (save_api_key api_key keyFile saveOk).2)
  else
    (none, [.testCall, .log "API key is invalid."])

/-! ## SQLite model

Model of the sqlite3 library semantics used by connect_to_db and the
games query: sqlite3.connect opens the file lazily, so connecting to a
missing path creates a fresh empty database and succeeds, connecting
to a corrupt file also succeeds with the corruption surfacing at the
first executed statement, and only a file that cannot be opened at all
(for example a permission error) raises sqlite3.Error at connect time. -/

/-- The state of the file at the database path. -/
inductive DbFileState
  | missing
  | corrupt
  | unreadable
  | valid (slugs : List String)
  deriving DecidableEq

/-- The state of an open connection. -/
inductive ConnState
  | emptyDb
  | corruptDb
  | validDb (slugs : List String)
  deriving DecidableEq

/-- sqlite3.connect (see the SQLite model comment above). -/
def sqlite3_connect : DbFileState → Option ConnState
  | .missing => some .emptyDb
  | .corrupt => some .corruptDb
  | .unreadable => none
  | .valid slugs => some (.validDb slugs)

/-- sqlite3 errors raised when executing SELECT slug FROM games. -/
inductive SqlError
  | noSuchTable
  | notADatabase
  deriving DecidableEq

/-- cursor.execute of SELECT slug FROM games followed by fetchall: a
freshly created empty database has no games table, a corrupt file is
not a database; both raise sqlite3.OperationalError. -/
def executeSelectSlugs : ConnState → Except SqlError (List String)
  | .emptyDb => .error .noSuchTable
  | .corruptDb => .error .notADatabase
  | .validDb slugs => .ok slugs

/-- connect_to_db: returns the connection, or None after printing the
error when sqlite3.connect raises. -/
def connect_to_db (db : DbFileState) : Option ConnState :=
  sqlite3_connect db

/-! ## The per-game pipeline -/

/-- search_game_id: one GET to the autocomplete endpoint with the slug
as query text; HTTPError (4xx and 5xx) and network errors are caught
and yield None; a response whose data field is absent or empty yields
None with a warning; otherwise the id of the first entry is returned. -/
def search_game_id (w : World) (game_name : String) : Option Nat × List Event :=
  let url := STEAMGRIDDB_API_BASE_URL ++ "/search/autocomplete/" ++ game_name
  match w.searchResp game_name with
  | .netErr =>
    (none, [.searchCall url, .log ("Error searching for game " ++ game_name)])
  | .resp status data =>
    if is_http_error status then
      (none, [.searchCall url, .log ("Error searching for game " ++ game_name)])
    else
      match data with
      | some (id :: _) =>
        (some id, [.searchCall url, .log ("Found game: " ++ display_name game_name)])
      | _ =>
        (none, [.searchCall url,
          .log ("Warning: Could not find a cover for game " ++ game_name ++
                " on SteamGridDB.")])

/-- Result of one pipeline step: the cache afterwards, the events
performed, and the uncaught OSError when a filesystem operation
failed (the except clause of download_cover only catches
RequestException, so OSError from os.makedirs or the file write
propagates). -/
structure StepResult where
  fs : Cache
  trace : List Event
  err : Option FsError
  deriving DecidableEq

/-- download_cover: returns immediately on a falsy game id (None or 0);
otherwise queries the grids endpoint, takes the first result URL,
downloads the image and writes it to cache_path joined with the slug
and the jpg extension. RequestExceptions anywhere in the sequence are
caught and logged; filesystem errors escape as StepResult.err. -/
def download_cover (w : World) (game_name : String) (game_id : Option Nat)
    (dimensions cache_path : String) (fs : Cache) : StepResult :=
  match game_id with
  | none => ⟨fs, [], none⟩
  | some 0 => ⟨fs, [], none⟩
  | some (Nat.succ n) =>
    let gid := Nat.succ n
    let dlLog := Event.log ("Downloading cover for " ++ display_name game_name ++ "...")
    let grids_url := STEAMGRIDDB_API_BASE_URL ++ "/grids/game/" ++ toString gid ++
      "?dimensions=" ++ dimensions
    let errLog := Event.log ("Error downloading cover for " ++ game_name)
    match w.gridsResp gid dimensions with
    | .netErr => ⟨fs, [dlLog, .gridsCall grids_url, errLog], none⟩
    | .resp status data =>
      if is_http_error status then
        ⟨fs, [dlLog, .gridsCall grids_url, errLog], none⟩
      else
        match data with
        | some (cover_url :: _) =>
          (match w.imageResp cover_url with
           | .netErr =>
             ⟨fs, [dlLog, .gridsCall grids_url, .imageCall cover_url, errLog], none⟩
           | .resp istatus bytes =>
             if is_http_error istatus then
               ⟨fs, [dlLog, .gridsCall grids_url, .imageCall cover_url, errLog], none⟩
             else
               let filepath := os_path_join cache_path (game_name ++ ".jpg")
               match w.mkdirErr with
               | some e =>
                 ⟨fs, [dlLog, .gridsCall grids_url, .imageCall cover_url], some e⟩
               | none =>
                 match w.writeErr with
                 | some e =>
                   ⟨fs, [dlLog, .gridsCall grids_url, .imageCall cover_url,
                         .mkdir cache_path], some e⟩
                 | none =>
                   ⟨writeFileRaw fs filepath bytes,
                    [dlLog, .gridsCall grids_url, .imageCall cover_url,
                     .mkdir cache_path, .fileWrite filepath bytes,
                     .log ("Cover saved to: " ++ filepath)], none⟩)
        | _ =>
          ⟨fs, [dlLog, .gridsCall grids_url,
                .log ("Warning: Could not find a cover with dimensions " ++ dimensions ++
                      " for game " ++ game_name ++ " on SteamGridDB.")], none⟩

/-- The existence probe of the driver loop: a file named slug plus any
accepted extension in the cache directory. -/
def cover_exists (fs : Cache) (cache_path slug : String) : Bool :=
  COVER_ART_EXTENSIONS.any (fun ext => isfile fs (os_path_join cache_path (slug ++ ext)))

/-- One iteration of the driver loop of get_games_list_from_db: skip
with a log line when a cover already exists, otherwise resolve and
fetch. -/
def process_game (w : World) (dimensions cache_path : String) (fs : Cache)
    (slug : String) : StepResult :=
  if cover_exists fs cache_path slug then
    ⟨fs, [.log ("Cover for " ++ display_name slug ++ " already exists.")], none⟩
  else
    let s := search_game_id w slug
    let r := download_cover w slug s.1 dimensions cache_path fs
    ⟨r.fs, s.2 ++ r.trace, r.err⟩

/-- The driver loop over the slug list; an uncaught filesystem error
stops the loop (the for loop body is not wrapped in a try). -/
def process_games (w : World) (dimensions cache_path : String) :
    Cache → List String → StepResult
  | fs, [] => ⟨fs, [], none⟩
  | fs, slug :: rest =>
    let r := process_game w dimensions cache_path fs slug
    match r.err with
    | some e => ⟨r.fs, r.trace, some e⟩
    | none =>
      let r2 := process_games w dimensions cache_path r.fs rest
      ⟨r2.fs, r.trace ++ r2.trace, r2.err⟩

/-- get_games_list_from_db: run SELECT slug FROM games (an sqlite error
propagates to the caller uncaught), short-circuit on an empty library,
otherwise run the driver loop. -/
def get_games_list_from_db (w : World) (conn : ConnState)
    (cache_path dimensions : String) (fs : Cache) : Except SqlError StepResult :=
  match executeSelectSlugs conn with
  | .error e => .error e
  | .ok games =>
    if games.isEmpty then
      .ok ⟨fs, [.log "No games found in Lutris database."], none⟩
    else
      let r := process_games w dimensions cache_path fs games
      match r.err with
      | none =>
        .ok ⟨r.fs, [.log "Checking and downloading covers..."] ++ r.trace ++
              [.log "All done! Restart Lutris for the changes to take effect."], none⟩
      | some e =>
        .ok ⟨r.fs, [.log "Checking and downloading covers..."] ++ r.trace, some e⟩

/-! ## The main function -/

/-- The environment of one run: the oracle outcomes of every external
interaction main can perform. -/
structure Env where
  login : Option String
  promptAnswer : Option String
  dbState : DbFileState
  apiKeyFile : ApiKeyFileState
  apiKeyInput : String
  testResp : TestOutcome
  saveOk : Bool
  net : World
  fs : Cache

/-- How the process ends: a controlled exit with a code, or a crash
from an uncaught exception (the interpreter then exits non-zero with a
traceback). -/
inductive RunOutcome
  | exit (code : Nat) (trace : List Event)
  | crash (trace : List Event)
  deriving DecidableEq

/-- main: username, cover-type prompt (exit 0 when the guard on the
falsy pair fires), database connection (exit 1 when connect_to_db
returns None), credential loading with interactive fallback (exit 1 on
failure), then the driver loop; an sqlite error from the games query or
an OSError from the loop is uncaught and crashes the process. -/
def mainRun (env : Env) : RunOutcome :=
  match env.login with
  | none => .exit 1 [.log "Error: Could not get session username."]
  | some user =>
    let ev0 : List Event := [.log ("Welcome " ++ user ++ " to Lutris Cover Art Downloader!")]
    let ct := get_cover_type user env.promptAnswer
    let ctLog : List Event :=
      match env.promptAnswer with
      | none => [.log "Operation cancelled by user."]
      | some a => [.log ("Cover type set to " ++ a)]
    if pyFalsyStr ct.1 || pyFalsyStr ct.2 then
      .exit 0 (ev0 ++ ctLog)
    else
      let dims := ct.1.getD ""
      let cp := ct.2.getD ""
      let ev1 := ev0 ++ ctLog ++ [.dbConnect]
      match connect_to_db env.dbState with
      | none => .exit 1 (ev1 ++ [.log "Error: Could not connect to Lutris database."])
      | some conn =>
        let ev2 := ev1 ++ [.log "Getting API Key..."]
        let auth : Option String × List Event :=
          match get_api_key_from_file env.apiKeyFile with
          | some h => (some h, [])
          | none =>
            let r := set_api_key env.apiKeyInput env.testResp env.apiKeyFile env.saveOk
            (r.1, [.log "API key not found."] ++ r.2)
        match auth.1 with
        | none => .exit 1 (ev2 ++ auth.2)
        | some _hdr =>
          match get_games_list_from_db env.net conn cp dims env.fs with
          | .error _e => .crash (ev2 ++ auth.2)
          | .ok r =>
            match r.err with
            | some _e => .crash (ev2 ++ auth.2 ++ r.trace)
            | none => .exit 0 (ev2 ++ auth.2 ++ r.trace)

/-! ## Derived descriptions of the pipeline effect

The following definitions restate, outcome-first, which bytes a
download_cover call ends up writing; they are related to the source
functions by the effect lemmas below and are used to reason about the
driver loop as a fold over the cache. -/

/-- The bytes download_cover writes for a given resolved id, or none
when it returns without writing (falsy id, transport failure, empty
grids result). -/
def dl_bytes (w : World) (game_id : Option Nat) (dimensions : String) : Option String :=
  match game_id with
  | none => none
  | some 0 => none
  | some (Nat.succ n) =>
    match w.gridsResp (Nat.succ n) dimensions with
    | .netErr => none
    | .resp status data =>
      if is_http_error status then none
      else
        match data with
        | some (url :: _) =>
          (match w.imageResp url with
           | .netErr => none
           | .resp istatus b => if is_http_error istatus then none else some b)
        | _ => none

/-- The bytes the resolve-and-fetch sequence writes for a slug. -/
def fetch_bytes (w : World) (dimensions slug : String) : Option String :=
  dl_bytes w (search_game_id w slug).1 dimensions

/-- The cache after one driver-loop iteration, when no filesystem
error is injected. -/
def cache_step (w : World) (dimensions cache_path : String) (fs : Cache)
    (slug : String) : Cache :=
  if cover_exists fs cache_path slug then fs
  else
    match fetch_bytes w dimensions slug with
    | some b => writeFileRaw fs (os_path_join cache_path (slug ++ ".jpg")) b
    | none => fs

theorem download_cover_effect (w : World) (game_name : String) (game_id : Option Nat)
    (d cp : String) (fs : Cache) (hmk : w.mkdirErr = none) (hwr : w.writeErr = none) :
    (download_cover w game_name game_id d cp fs).err = none ∧
    (download_cover w game_name game_id d cp fs).fs =
      (match dl_bytes w game_id d with
       | some b => writeFileRaw fs (os_path_join cp (game_name ++ ".jpg")) b
       | none => fs) := by
  match game_id with
  | none => exact ⟨rfl, rfl⟩
  | some 0 => exact ⟨rfl, rfl⟩
  | some (Nat.succ n) =>
    cases hg : w.gridsResp (Nat.succ n) d with
    | netErr => simp [download_cover, dl_bytes, hg]
    | resp status data =>
      by_cases hs : is_http_error status = true
      · simp [download_cover, dl_bytes, hg, hs]
      · match data with
        | none => simp [download_cover, dl_bytes, hg, hs]
        | some [] => simp [download_cover, dl_bytes, hg, hs]
        | some (url :: us) =>
          cases hi : w.imageResp url with
          | netErr => simp [download_cover, dl_bytes, hg, hs, hi]
          | resp istatus b =>
            by_cases his : is_http_error istatus = true
            · simp [download_cover, dl_bytes, hg, hs, hi, his]
            · simp [download_cover, dl_bytes, hg, hs, hi, his, hmk, hwr]

theorem download_cover_no_write (w : World) (game_name : String) (game_id : Option Nat)
    (d cp : String) (fs : Cache) (h : dl_bytes w game_id d = none) :
    ∀ p b, Event.fileWrite p b ∉ (download_cover w game_name game_id d cp fs).trace := by
  intro p b
  match game_id with
  | none => simp [download_cover]
  | some 0 => simp [download_cover]
  | some (Nat.succ n) =>
    cases hg : w.gridsResp (Nat.succ n) d with
    | netErr => simp [download_cover, hg]
    | resp status data =>
      by_cases hs : is_http_error status = true
      · simp [download_cover, hg, hs]
      · match data with
        | none => simp [download_cover, hg, hs]
        | some [] => simp [download_cover, hg, hs]
        | some (url :: us) =>
          cases hi : w.imageResp url with
          | netErr => simp [download_cover, hg, hs, hi]
          | resp istatus b2 =>
            by_cases his : is_http_error istatus = true
            · simp [download_cover, hg, hs, hi, his]
            · exact absurd h (by simp [dl_bytes, hg, hs, hi, his])

theorem search_game_id_no_write (w : World) (s : String) :
    ∀ p b, Event.fileWrite p b ∉ (search_game_id w s).2 := by
  intro p b
  cases hs : w.searchResp s with
  | netErr => simp [search_game_id, hs]
  | resp status data =>
    by_cases he : is_http_error status = true
    · simp [search_game_id, hs, he]
    · match data with
      | none => simp [search_game_id, hs, he]
      | some [] => simp [search_game_id, hs, he]
      | some (id :: rest) => simp [search_game_id, hs, he]

theorem process_game_effect (w : World) (d cp : String) (fs : Cache) (s : String)
    (hmk : w.mkdirErr = none) (hwr : w.writeErr = none) :
    (process_game w d cp fs s).err = none ∧
    (process_game w d cp fs s).fs = cache_step w d cp fs s := by
  unfold process_game cache_step
  by_cases hc : cover_exists fs cp s = true
  · simp [hc]
  · simp only [hc, Bool.false_eq_true, if_false]
    obtain ⟨he, hf⟩ := download_cover_effect w s (search_game_id w s).1 d cp fs hmk hwr
    exact ⟨he, by rw [hf]; rfl⟩

theorem process_game_no_write (w : World) (d cp : String) (fs : Cache) (s : String)
    (h : cover_exists fs cp s = true ∨ fetch_bytes w d s = none) :
    ∀ p b, Event.fileWrite p b ∉ (process_game w d cp fs s).trace := by
  intro p b
  unfold process_game
  by_cases hc : cover_exists fs cp s = true
  · simp [hc]
  · rcases h with h | h
    · exact absurd h hc
    · simp only [hc, Bool.false_eq_true, if_false, List.mem_append]
      rintro (hmem | hmem)
      · exact search_game_id_no_write w s p b hmem
      · exact download_cover_no_write w s (search_game_id w s).1 d cp fs h p b hmem

theorem process_games_effect (w : World) (d cp : String)
    (hmk : w.mkdirErr = none) (hwr : w.writeErr = none) :
    ∀ (games : List String) (fs : Cache),
    (process_games w d cp fs games).err = none ∧
    (process_games w d cp fs games).fs = List.foldl (cache_step w d cp) fs games := by
  intro games
  induction games with
  | nil => intro fs; exact ⟨rfl, rfl⟩
  | cons s rest ih =>
    intro fs
    obtain ⟨he, hf⟩ := process_game_effect w d cp fs s hmk hwr
    obtain ⟨he2, hf2⟩ := ih (process_game w d cp fs s).fs
    simp only [process_games, he]
    rw [List.foldl_cons, ← hf]
    exact ⟨he2, hf2⟩

/-! ## Cache lemmas for the idempotence argument -/

theorem isfile_writeFileRaw_iff (fs : Cache) (q b p : String) :
    isfile (writeFileRaw fs q b) p = true ↔ (isfile fs p = true ∨ p = q) := by
  unfold writeFileRaw
  by_cases hq : isfile fs q = true
  · rw [if_pos hq]
    unfold isfile at *
    simp only [List.any_map, List.any_eq_true, Function.comp, beq_iff_eq] at *
    constructor
    · rintro ⟨e, he, hbe⟩
      by_cases heq : e.1 = q
      · rw [if_pos heq] at hbe
        exact Or.inr hbe.symm
      · rw [if_neg heq] at hbe
        exact Or.inl ⟨e, he, hbe⟩
    · rintro (⟨e, he, hbe⟩ | rfl)
      · by_cases heq : e.1 = q
        · exact ⟨e, he, by rw [if_pos heq]; exact heq.symm.trans hbe⟩
        · exact ⟨e, he, by rw [if_neg heq]; exact hbe⟩
      · obtain ⟨e, he, hbe⟩ := hq
        exact ⟨e, he, by rw [if_pos hbe]⟩
  · rw [if_neg hq]
    unfold isfile
    simp only [List.any_append, List.any_eq_true, Bool.or_eq_true, List.any_cons,
      List.any_nil, Bool.or_false, beq_iff_eq]
    constructor
    · rintro (h | h)
      · exact Or.inl (by simpa [isfile, List.any_eq_true] using h)
      · exact Or.inr h.symm
    · rintro (h | rfl)
      · exact Or.inl (by simpa [isfile, List.any_eq_true] using h)
      · exact Or.inr rfl

theorem cover_exists_writeFileRaw (fs : Cache) (cp s q b : String)
    (h : cover_exists fs cp s = true) :
    cover_exists (writeFileRaw fs q b) cp s = true := by
  unfold cover_exists at *
  simp only [List.any_eq_true] at *
  obtain ⟨ext, hmem, hfile⟩ := h
  exact ⟨ext, hmem, (isfile_writeFileRaw_iff ..).2 (Or.inl hfile)⟩

theorem cover_exists_write_self (fs : Cache) (cp s b : String) :
    cover_exists (writeFileRaw fs (os_path_join cp (s ++ ".jpg")) b) cp s = true := by
  unfold cover_exists
  simp only [List.any_eq_true]
  exact ⟨".jpg", by simp [COVER_ART_EXTENSIONS], (isfile_writeFileRaw_iff ..).2 (Or.inr rfl)⟩

theorem cover_exists_cache_step (w : World) (d cp : String) (fs : Cache) (s t : String)
    (h : cover_exists fs cp t = true) :
    cover_exists (cache_step w d cp fs s) cp t = true := by
  unfold cache_step
  by_cases hc : cover_exists fs cp s = true
  · rwa [if_pos hc]
  · rw [if_neg hc]
    cases fetch_bytes w d s with
    | none => exact h
    | some b => exact cover_exists_writeFileRaw fs cp t _ b h

theorem cover_exists_foldl (w : World) (d cp : String) (games : List String) :
    ∀ (fs : Cache) (t : String), cover_exists fs cp t = true →
    cover_exists (List.foldl (cache_step w d cp) fs games) cp t = true := by
  induction games with
  | nil => intro fs t h; exact h
  | cons s rest ih =>
    intro fs t h
    rw [List.foldl_cons]
    exact ih _ _ (cover_exists_cache_step w d cp fs s t h)

theorem cache_step_noop (w : World) (d cp : String) (fs : Cache) (s : String)
    (h : cover_exists fs cp s = true ∨ fetch_bytes w d s = none) :
    cache_step w d cp fs s = fs := by
  unfold cache_step
  by_cases hc : cover_exists fs cp s = true
  · rw [if_pos hc]
  · rw [if_neg hc]
    rcases h with h | h
    · exact absurd h hc
    · rw [h]

/-- After the driver loop, every slug of the list either has a cover in
the cache or is one the remote responses give no image for. -/
theorem foldl_invariant (w : World) (d cp : String) :
    ∀ (games : List String) (fs : Cache) (t : String), t ∈ games →
    cover_exists (List.foldl (cache_step w d cp) fs games) cp t = true ∨
    fetch_bytes w d t = none := by
  intro games
  induction games with
  | nil => intro fs t ht; cases ht
  | cons s rest ih =>
    intro fs t ht
    rcases List.mem_cons.mp ht with rfl | ht
    · cases hf : fetch_bytes w d t with
      | none => exact Or.inr rfl
      | some b =>
        left
        rw [List.foldl_cons]
        apply cover_exists_foldl
        by_cases hc : cover_exists fs cp t = true
        · exact cover_exists_cache_step w d cp fs t t hc
        · unfold cache_step
          rw [if_neg hc, hf]
          exact cover_exists_write_self fs cp t b
    · rw [List.foldl_cons]; exact ih _ _ ht

theorem foldl_noop (w : World) (d cp : String) :
    ∀ (games : List String) (fs : Cache),
    (∀ t ∈ games, cover_exists fs cp t = true ∨ fetch_bytes w d t = none) →
    List.foldl (cache_step w d cp) fs games = fs := by
  intro games
  induction games with
  | nil => intro fs _; rfl
  | cons s rest ih =>
    intro fs h
    have hs : cache_step w d cp fs s = fs :=
      cache_step_noop w d cp fs s (h s (List.mem_cons_self s rest))
    rw [List.foldl_cons, hs]
    exact ih fs (fun t ht => h t (List.mem_cons_of_mem s ht))

theorem process_games_no_write (w : World) (d cp : String)
    (hmk : w.mkdirErr = none) (hwr : w.writeErr = none) :
    ∀ (games : List String) (fs : Cache),
    (∀ t ∈ games, cover_exists fs cp t = true ∨ fetch_bytes w d t = none) →
    ∀ p b, Event.fileWrite p b ∉ (process_games w d cp fs games).trace := by
  intro games
  induction games with
  | nil => intro fs _ p b; simp [process_games]
  | cons s rest ih =>
    intro fs h p b
    obtain ⟨he, hf⟩ := process_game_effect w d cp fs s hmk hwr
    have hstep : (process_game w d cp fs s).fs = fs := by
      rw [hf]; exact cache_step_noop w d cp fs s (h s (List.mem_cons_self s rest))
    simp only [process_games, he, List.mem_append]
    rintro (hmem | hmem)
    · exact process_game_no_write w d cp fs s (h s (List.mem_cons_self s rest)) p b hmem
    · rw [hstep] at hmem
      exact ih fs (fun t ht => h t (List.mem_cons_of_mem s ht)) p b hmem

/-! ## Claim theorems -/

/-- Events that are network calls. -/
def is_net_call : Event → Bool
  | .searchCall _ => true
  | .gridsCall _ => true
  | .imageCall _ => true
  | .testCall => true
  | _ => false

/-- Events that touch the database, the network or the disk (everything
except log lines). -/
def touches_outside : Event → Bool
  | .log _ => false
  | _ => true

/-- A neutral remote world used by witnesses (every request fails). -/
def wNull : World :=
  World.mk (fun _ => ReqOutcome.netErr) (fun _ _ => ReqOutcome.netErr)
    (fun _ => ImgOutcome.netErr) none none

/-- A remote world in which every request succeeds. -/
def wOk : World :=
  World.mk (fun _ => ReqOutcome.resp 200 (some [7]))
    (fun _ _ => ReqOutcome.resp 200 (some ["https://cdn.example/img1"]))
    (fun _ => ImgOutcome.resp 200 "IMGBYTES") none none

/-- Claim C3 (amended): test_api_key returns true exactly when the test
request succeeds with status exactly 200; any other status (including
other 2xx codes) and any network error yield false, and the function
never raises (HTTPError and connection errors are caught). -/
theorem test_api_key_true_iff_200 (r : TestOutcome) :
    test_api_key r = true ↔ r = TestOutcome.resp 200 := by
  cases r with
  | netErr => simp [test_api_key]
  | resp status =>
    by_cases h : is_http_error status = true
    · simp only [test_api_key, h, if_true, TestOutcome.resp.injEq]
      constructor
      · intro hf; cases hf
      · rintro rfl; simp [is_http_error] at h
    · simp [test_api_key, h]

theorem test_api_key_true_iff_200_witness :
    test_api_key (TestOutcome.resp 200) = true ↔
      TestOutcome.resp 200 = TestOutcome.resp 200 :=
  test_api_key_true_iff_200 (TestOutcome.resp 200)

/-- Claim C3 counterexample: status 204 is a 2xx success response, but
test_api_key returns false for it (the code compares to 200 exactly),
refuting the claim that validity tracks any 2xx status. -/
theorem test_api_key_rejects_204 :
    test_api_key (TestOutcome.resp 204) = false ∧ 200 ≤ 204 ∧ 204 < 300 := by decide

/-- Claim C4 (amended): get_api_key_from_file returns a credential if
and only if the key file exists and is readable; the content is not
checked for emptiness, so an empty file yields the header with an empty
bearer token rather than signalling absent. -/
theorem get_api_key_from_file_spec (st : ApiKeyFileState) :
    ((get_api_key_from_file st).isSome = true ↔ ∃ s, st = ApiKeyFileState.content s) ∧
    (∀ s, get_api_key_from_file (ApiKeyFileState.content s) =
      some ("Bearer " ++ pyStrip s)) := by
  refine ⟨?_, fun s => rfl⟩
  cases st with
  | absent => simp [get_api_key_from_file]
  | unreadable => simp [get_api_key_from_file]
  | content s => exact ⟨fun _ => ⟨s, rfl⟩, fun _ => rfl⟩

theorem get_api_key_from_file_spec_witness :
    ((get_api_key_from_file (ApiKeyFileState.content "k")).isSome = true ↔
      ∃ s, ApiKeyFileState.content "k" = ApiKeyFileState.content s) ∧
    (∀ s, get_api_key_from_file (ApiKeyFileState.content s) =
      some ("Bearer " ++ pyStrip s)) :=
  get_api_key_from_file_spec (ApiKeyFileState.content "k")

/-- Claim C4 counterexample: for an existing but empty key file the
function returns a credential (the bare Bearer prefix) instead of
signalling absent. -/
theorem get_api_key_empty_file_yields_credential :
    get_api_key_from_file (ApiKeyFileState.content "") = some "Bearer " ∧
    ("" : String).isEmpty = true := by decide

/-- Claim C7 (amended): for every token without leading or trailing
whitespace, save_api_key followed by get_api_key_from_file yields an
authorization header whose embedded bearer token is exactly the saved
token (the loader strips the stored content, so only whitespace-free
tokens round-trip unchanged). -/
theorem save_then_load_roundtrip (tok : String) (st : ApiKeyFileState)
    (h : pyStrip tok = tok) :
    get_api_key_from_file (save_api_key tok st true).1 = some ("Bearer " ++ tok) := by
  simp [save_api_key, get_api_key_from_file, h]

theorem save_then_load_roundtrip_witness :
    pyStrip "mykey123" = "mykey123" ∧
    get_api_key_from_file (save_api_key "mykey123" ApiKeyFileState.absent true).1 =
      some ("Bearer " ++ "mykey123") :=
  ⟨by decide, save_then_load_roundtrip "mykey123" ApiKeyFileState.absent (by decide)⟩

/-- Claim C7 counterexample: a token with a trailing space does not
round-trip: the loader strips the stored content, so the embedded
bearer token differs from the saved token string. -/
theorem save_then_load_strips_whitespace :
    get_api_key_from_file (save_api_key "abc " ApiKeyFileState.absent true).1 =
      some "Bearer abc" ∧ ("Bearer abc" : String) ≠ "Bearer " ++ "abc " := by decide

/-- Claim C6: for every slug with a cover file under any accepted
extension already in the cache directory, the driver only logs that the
cover exists: the cache is unchanged, no error occurs, and the trace
contains no network call (so neither search_game_id nor download_cover
ran). -/
theorem existing_cover_skips_resolver_and_fetcher (w : World) (d cp : String)
    (fs : Cache) (slug : String) (h : cover_exists fs cp slug = true) :
    process_game w d cp fs slug =
      ⟨fs, [Event.log ("Cover for " ++ display_name slug ++ " already exists.")], none⟩ ∧
    ∀ e ∈ (process_game w d cp fs slug).trace, is_net_call e = false := by
  have hp : process_game w d cp fs slug =
      ⟨fs, [Event.log ("Cover for " ++ display_name slug ++ " already exists.")], none⟩ := by
    simp [process_game, h]
  refine ⟨hp, ?_⟩
  rw [hp]
  intro e he
  simp only [List.mem_singleton] at he
  subst he
  rfl

def fs6 : Cache := [("/c/half-life-2.png", "IMG")]

theorem existing_cover_skips_witness :
    cover_exists fs6 "/c/" "half-life-2" = true ∧
    (process_game wNull "600x900" "/c/" fs6 "half-life-2" =
      ⟨fs6, [Event.log ("Cover for " ++ display_name "half-life-2" ++ " already exists.")],
        none⟩ ∧
     ∀ e ∈ (process_game wNull "600x900" "/c/" fs6 "half-life-2").trace,
       is_net_call e = false) :=
  ⟨by decide,
   existing_cover_skips_resolver_and_fetcher wNull "600x900" "/c/" fs6 "half-life-2"
     (by decide)⟩

/-- Claim C10: when the aspect-profile prompt is cancelled,
get_cover_type returns the pair of None values and main exits with code
0 after only printing log lines: no database connection, no network
call, no directory creation and no file write appears in the trace. -/
theorem cancelled_prompt_exits_cleanly (env : Env) (user : String)
    (hlogin : env.login = some user) (hprompt : env.promptAnswer = none) :
    get_cover_type user env.promptAnswer = (none, none) ∧
    ∃ tr, mainRun env = RunOutcome.exit 0 tr ∧
      tr.all (fun e => touches_outside e = false) = true := by
  constructor
  · rw [hprompt]; rfl
  · refine ⟨[Event.log ("Welcome " ++ user ++ " to Lutris Cover Art Downloader!"),
             Event.log "Operation cancelled by user."], ?_, by simp [touches_outside]⟩
    simp [mainRun, hlogin, hprompt, get_cover_type, pyFalsyStr]

def envCancel : Env :=
  Env.mk (some "alice") none DbFileState.missing ApiKeyFileState.absent ""
    TestOutcome.netErr true wNull []

theorem cancelled_prompt_exits_cleanly_witness :
    envCancel.login = some "alice" ∧ envCancel.promptAnswer = none ∧
    (get_cover_type "alice" envCancel.promptAnswer = (none, none) ∧
     ∃ tr, mainRun envCancel = RunOutcome.exit 0 tr ∧
       tr.all (fun e => touches_outside e = false) = true) :=
  ⟨rfl, rfl, cancelled_prompt_exits_cleanly envCancel "alice" rfl rfl⟩

def envMissingDb : Env :=
  Env.mk (some "alice") (some "Vertical") DbFileState.missing
    (ApiKeyFileState.content "key") "" TestOutcome.netErr true wNull []

/-- Claim C1 (code bug): sqlite3.connect does not fail on a missing or
corrupt database file; it creates a fresh empty database (respectively
defers the corruption error to the first query), so connect_to_db
returns a connection, main passes the None guard without exiting 1, and
the run later dies with an uncaught sqlite3.OperationalError from the
games query instead of the claimed controlled StoreUnavailable exit.
Only an unopenable (for example unreadable) file takes the claimed
path. -/
theorem connect_to_db_missing_not_detected :
    connect_to_db DbFileState.missing = some ConnState.emptyDb ∧
    connect_to_db DbFileState.corrupt = some ConnState.corruptDb ∧
    connect_to_db DbFileState.unreadable = none ∧
    (∃ tr, mainRun envMissingDb = RunOutcome.crash tr) := by
  refine ⟨rfl, rfl, rfl, ?_⟩
  exact ⟨_, rfl⟩

/-- Claim C5: with fixed remote responses and no filesystem failure,
running the driver loop a second time over the same slug list starting
from the cache the first run produced leaves the cache unchanged, and
the second run performs no file write at all: the existence checks
short-circuit every previously downloaded slug and the remaining slugs
again produce nothing. -/
theorem pipeline_idempotent (w : World) (d cp : String) (fs : Cache)
    (games : List String) (hmk : w.mkdirErr = none) (hwr : w.writeErr = none) :
    (process_games w d cp (process_games w d cp fs games).fs games).fs =
      (process_games w d cp fs games).fs ∧
    ∀ p b, Event.fileWrite p b ∉
      (process_games w d cp (process_games w d cp fs games).fs games).trace := by
  obtain ⟨he1, hf1⟩ := process_games_effect w d cp hmk hwr games fs
  have hinv : ∀ t ∈ games,
      cover_exists (process_games w d cp fs games).fs cp t = true ∨
      fetch_bytes w d t = none := by
    intro t ht
    rw [hf1]
    exact foldl_invariant w d cp games fs t ht
  constructor
  · obtain ⟨he2, hf2⟩ :=
      process_games_effect w d cp hmk hwr games (process_games w d cp fs games).fs
    rw [hf2]
    exact foldl_noop w d cp games _ hinv
  · exact process_games_no_write w d cp hmk hwr games _ hinv

theorem pipeline_idempotent_witness :
    wOk.mkdirErr = none ∧ wOk.writeErr = none ∧
    ((process_games wOk "600x900" "/c/"
        (process_games wOk "600x900" "/c/" [] ["half-life-2", "portal"]).fs
        ["half-life-2", "portal"]).fs =
      (process_games wOk "600x900" "/c/" [] ["half-life-2", "portal"]).fs ∧
     ∀ p b, Event.fileWrite p b ∉
       (process_games wOk "600x900" "/c/"
         (process_games wOk "600x900" "/c/" [] ["half-life-2", "portal"]).fs
         ["half-life-2", "portal"]).trace) :=
  ⟨rfl, rfl,
   pipeline_idempotent wOk "600x900" "/c/" [] ["half-life-2", "portal"] rfl rfl⟩

/-- Claim C9: when the search resolved an id but the grid query returns
an empty result set at the requested dimensions, download_cover writes
no file, logs the no-cover warning, raises nothing past the per-item
boundary, and the driver loop continues with the remaining slugs. -/
theorem empty_grids_no_file_written (w : World) (d cp : String) (fs : Cache)
    (slug : String) (rest : List String) (n sst st : Nat) (ids : List Nat)
    (hcov : cover_exists fs cp slug = false)
    (hsearch : w.searchResp slug = ReqOutcome.resp sst (some (Nat.succ n :: ids)))
    (hsok : is_http_error sst = false)
    (hgrids : w.gridsResp (Nat.succ n) d = ReqOutcome.resp st (some []))
    (hgok : is_http_error st = false) :
    (process_game w d cp fs slug).fs = fs ∧
    (process_game w d cp fs slug).err = none ∧
    Event.log ("Warning: Could not find a cover with dimensions " ++ d ++
      " for game " ++ slug ++ " on SteamGridDB.") ∈ (process_game w d cp fs slug).trace ∧
    (∀ p b, Event.fileWrite p b ∉ (process_game w d cp fs slug).trace) ∧
    process_games w d cp fs (slug :: rest) =
      ⟨(process_games w d cp fs rest).fs,
       (process_game w d cp fs slug).trace ++ (process_games w d cp fs rest).trace,
       (process_games w d cp fs rest).err⟩ := by
  have hpg : process_game w d cp fs slug =
      ⟨fs, [Event.searchCall (STEAMGRIDDB_API_BASE_URL ++ "/search/autocomplete/" ++ slug),
            Event.log ("Found game: " ++ display_name slug),
            Event.log ("Downloading cover for " ++ display_name slug ++ "..."),
            Event.gridsCall (STEAMGRIDDB_API_BASE_URL ++ "/grids/game/" ++
              toString (Nat.succ n) ++ "?dimensions=" ++ d),
            Event.log ("Warning: Could not find a cover with dimensions " ++ d ++
              " for game " ++ slug ++ " on SteamGridDB.")], none⟩ := by
    simp [process_game, hcov, search_game_id, hsearch, hsok, download_cover, hgrids, hgok]
  refine ⟨by rw [hpg], by rw [hpg], by rw [hpg]; simp, by rw [hpg]; simp, ?_⟩
  simp only [process_games, hpg]

def w9 : World :=
  World.mk (fun _ => ReqOutcome.resp 200 (some [5]))
    (fun _ _ => ReqOutcome.resp 200 (some [])) (fun _ => ImgOutcome.netErr) none none

theorem empty_grids_no_file_written_witness :
    cover_exists [] "/c/" "portal" = false ∧
    w9.searchResp "portal" = ReqOutcome.resp 200 (some [Nat.succ 4]) ∧
    w9.gridsResp (Nat.succ 4) "600x900" = ReqOutcome.resp 200 (some []) ∧
    ((process_game w9 "600x900" "/c/" [] "portal").fs = [] ∧
     (process_game w9 "600x900" "/c/" [] "portal").err = none ∧
     Event.log ("Warning: Could not find a cover with dimensions " ++ "600x900" ++
       " for game " ++ "portal" ++ " on SteamGridDB.") ∈
       (process_game w9 "600x900" "/c/" [] "portal").trace ∧
     (∀ p b, Event.fileWrite p b ∉ (process_game w9 "600x900" "/c/" [] "portal").trace) ∧
     process_games w9 "600x900" "/c/" [] ("portal" :: ["x"]) =
       ⟨(process_games w9 "600x900" "/c/" [] ["x"]).fs,
        (process_game w9 "600x900" "/c/" [] "portal").trace ++
          (process_games w9 "600x900" "/c/" [] ["x"]).trace,
        (process_games w9 "600x900" "/c/" [] ["x"]).err⟩) :=
  ⟨rfl, rfl, rfl,
   empty_grids_no_file_written w9 "600x900" "/c/" [] "portal" ["x"] 4 200 200 []
     rfl rfl rfl rfl rfl⟩

/-- A transport failure inside download_cover: the grids request or the
image request raises a RequestException (a network error, or HTTPError
from raise_for_status on a 4xx or 5xx status). -/
def grid_or_image_transport_failure (w : World) (gid : Nat) (d : String) : Prop :=
  w.gridsResp gid d = ReqOutcome.netErr ∨
  (∃ st data, w.gridsResp gid d = ReqOutcome.resp st data ∧ is_http_error st = true) ∨
  (∃ st url us, w.gridsResp gid d = ReqOutcome.resp st (some (url :: us)) ∧
    is_http_error st = false ∧
    (w.imageResp url = ImgOutcome.netErr ∨
     ∃ ist b, w.imageResp url = ImgOutcome.resp ist b ∧ is_http_error ist = true))

/-- Claim C2 (amended): a transport failure during the grid query or
the image download inside download_cover is caught and logged as a
per-game failure, the cache is unchanged, and the driver loop continues
with the remaining slugs. Filesystem failures are not covered: OSError
from os.makedirs or the file write is not a RequestException, escapes
download_cover and aborts the run (see the counterexample). -/
theorem transport_failure_isolated (w : World) (d cp : String) (fs : Cache)
    (slug : String) (rest : List String) (n sst : Nat) (ids : List Nat)
    (hcov : cover_exists fs cp slug = false)
    (hsearch : w.searchResp slug = ReqOutcome.resp sst (some (Nat.succ n :: ids)))
    (hsok : is_http_error sst = false)
    (hfail : grid_or_image_transport_failure w (Nat.succ n) d) :
    (process_game w d cp fs slug).fs = fs ∧
    (process_game w d cp fs slug).err = none ∧
    Event.log ("Error downloading cover for " ++ slug) ∈
      (process_game w d cp fs slug).trace ∧
    process_games w d cp fs (slug :: rest) =
      ⟨(process_games w d cp fs rest).fs,
       (process_game w d cp fs slug).trace ++ (process_games w d cp fs rest).trace,
       (process_games w d cp fs rest).err⟩ := by
  have key : ∃ tr, process_game w d cp fs slug = ⟨fs, tr, none⟩ ∧
      Event.log ("Error downloading cover for " ++ slug) ∈ tr := by
    rcases hfail with hg | ⟨st, data, hg, hst⟩ | ⟨st, url, us, hg, hst, himg⟩
    · refine ⟨[Event.searchCall (STEAMGRIDDB_API_BASE_URL ++ "/search/autocomplete/" ++ slug),
               Event.log ("Found game: " ++ display_name slug),
               Event.log ("Downloading cover for " ++ display_name slug ++ "..."),
               Event.gridsCall (STEAMGRIDDB_API_BASE_URL ++ "/grids/game/" ++
                 toString (Nat.succ n) ++ "?dimensions=" ++ d),
               Event.log ("Error downloading cover for " ++ slug)], ?_, by simp⟩
      simp [process_game, hcov, search_game_id, hsearch, hsok, download_cover, hg]
    · refine ⟨[Event.searchCall (STEAMGRIDDB_API_BASE_URL ++ "/search/autocomplete/" ++ slug),
               Event.log ("Found game: " ++ display_name slug),
               Event.log ("Downloading cover for " ++ display_name slug ++ "..."),
               Event.gridsCall (STEAMGRIDDB_API_BASE_URL ++ "/grids/game/" ++
                 toString (Nat.succ n) ++ "?dimensions=" ++ d),
               Event.log ("Error downloading cover for " ++ slug)], ?_, by simp⟩
      simp [process_game, hcov, search_game_id, hsearch, hsok, download_cover, hg, hst]
    · rcases himg with hi | ⟨ist, b, hi, hist⟩
      · refine ⟨[Event.searchCall (STEAMGRIDDB_API_BASE_URL ++ "/search/autocomplete/" ++ slug),
                 Event.log ("Found game: " ++ display_name slug),
                 Event.log ("Downloading cover for " ++ display_name slug ++ "..."),
                 Event.gridsCall (STEAMGRIDDB_API_BASE_URL ++ "/grids/game/" ++
                   toString (Nat.succ n) ++ "?dimensions=" ++ d),
                 Event.imageCall url,
                 Event.log ("Error downloading cover for " ++ slug)], ?_, by simp⟩
        simp [process_game, hcov, search_game_id, hsearch, hsok, download_cover, hg, hst, hi]
      · refine ⟨[Event.searchCall (STEAMGRIDDB_API_BASE_URL ++ "/search/autocomplete/" ++ slug),
                 Event.log ("Found game: " ++ display_name slug),
                 Event.log ("Downloading cover for " ++ display_name slug ++ "..."),
                 Event.gridsCall (STEAMGRIDDB_API_BASE_URL ++ "/grids/game/" ++
                   toString (Nat.succ n) ++ "?dimensions=" ++ d),
                 Event.imageCall url,
                 Event.log ("Error downloading cover for " ++ slug)], ?_, by simp⟩
        simp [process_game, hcov, search_game_id, hsearch, hsok, download_cover,
          hg, hst, hi, hist]
  obtain ⟨tr, hpg, hmem⟩ := key
  refine ⟨by rw [hpg], by rw [hpg], by rw [hpg]; exact hmem, ?_⟩
  simp only [process_games, hpg]

def wGridNetErr : World :=
  World.mk (fun _ => ReqOutcome.resp 200 (some [3])) (fun _ _ => ReqOutcome.netErr)
    (fun _ => ImgOutcome.netErr) none none

theorem transport_failure_isolated_witness :
    cover_exists [] "/c/" "half-life-2" = false ∧
    wGridNetErr.searchResp "half-life-2" = ReqOutcome.resp 200 (some [Nat.succ 2]) ∧
    grid_or_image_transport_failure wGridNetErr (Nat.succ 2) "600x900" ∧
    ((process_game wGridNetErr "600x900" "/c/" [] "half-life-2").fs = [] ∧
     (process_game wGridNetErr "600x900" "/c/" [] "half-life-2").err = none ∧
     Event.log ("Error downloading cover for " ++ "half-life-2") ∈
       (process_game wGridNetErr "600x900" "/c/" [] "half-life-2").trace ∧
     process_games wGridNetErr "600x900" "/c/" [] ("half-life-2" :: ["portal"]) =
       ⟨(process_games wGridNetErr "600x900" "/c/" [] ["portal"]).fs,
        (process_game wGridNetErr "600x900" "/c/" [] "half-life-2").trace ++
          (process_games wGridNetErr "600x900" "/c/" [] ["portal"]).trace,
        (process_games wGridNetErr "600x900" "/c/" [] ["portal"]).err⟩) :=
  ⟨rfl, rfl, Or.inl rfl,
   transport_failure_isolated wGridNetErr "600x900" "/c/" [] "half-life-2" ["portal"]
     2 200 [] rfl rfl rfl (Or.inl rfl)⟩

def wWriteFail : World :=
  World.mk (fun _ => ReqOutcome.resp 200 (some [7]))
    (fun _ _ => ReqOutcome.resp 200 (some ["https://cdn.example/img1"]))
    (fun _ => ImgOutcome.resp 200 "IMGBYTES") none (some FsError.writeFail)

/-- Claim C2 counterexample: with fully successful remote responses but
a failing file write, the OSError is not caught by download_cover
(whose except clause only names RequestException): the loop aborts with
the error and the second game is never reached, refuting the claim that
filesystem failures are logged per-game and the loop continues. -/
theorem fs_failure_aborts_run :
    (process_games wWriteFail "600x900" "/c/" [] ["half-life-2", "portal"]).err =
      some FsError.writeFail ∧
    Event.searchCall (STEAMGRIDDB_API_BASE_URL ++ "/search/autocomplete/" ++ "portal") ∉
      (process_games wWriteFail "600x900" "/c/" [] ["half-life-2", "portal"]).trace := by
  decide

/-! ## Trace lemmas for the literal-slug claim -/

theorem searchCall_mem_search (w : World) (slug url : String)
    (h : Event.searchCall url ∈ (search_game_id w slug).2) :
    url = STEAMGRIDDB_API_BASE_URL ++ "/search/autocomplete/" ++ slug := by
  cases hs : w.searchResp slug with
  | netErr => simp [search_game_id, hs] at h; exact h
  | resp status data =>
    by_cases he : is_http_error status = true
    · simp [search_game_id, hs, he] at h; exact h
    · match data with
      | none => simp [search_game_id, hs, he] at h; exact h
      | some [] => simp [search_game_id, hs, he] at h; exact h
      | some (id :: rest) => simp [search_game_id, hs, he] at h; exact h

theorem searchCall_not_mem_download (w : World) (game_name : String)
    (game_id : Option Nat) (d cp : String) (fs : Cache) (url : String) :
    Event.searchCall url ∉ (download_cover w game_name game_id d cp fs).trace := by
  match game_id with
  | none => simp [download_cover]
  | some 0 => simp [download_cover]
  | some (Nat.succ n) =>
    cases hg : w.gridsResp (Nat.succ n) d with
    | netErr => simp [download_cover, hg]
    | resp status data =>
      by_cases hs : is_http_error status = true
      · simp [download_cover, hg, hs]
      · match data with
        | none => simp [download_cover, hg, hs]
        | some [] => simp [download_cover, hg, hs]
        | some (u :: us) =>
          cases hi : w.imageResp u with
          | netErr => simp [download_cover, hg, hs, hi]
          | resp istatus b =>
            by_cases his : is_http_error istatus = true
            · simp [download_cover, hg, hs, hi, his]
            · cases hmk : w.mkdirErr with
              | some e => simp [download_cover, hg, hs, hi, his, hmk]
              | none =>
                cases hwr : w.writeErr with
                | some e => simp [download_cover, hg, hs, hi, his, hmk, hwr]
                | none => simp [download_cover, hg, hs, hi, his, hmk, hwr]

theorem fileWrite_mem_download (w : World) (game_name : String)
    (game_id : Option Nat) (d cp : String) (fs : Cache) (p b : String)
    (h : Event.fileWrite p b ∈ (download_cover w game_name game_id d cp fs).trace) :
    p = os_path_join cp (game_name ++ ".jpg") := by
  match game_id with
  | none => simp [download_cover] at h
  | some 0 => simp [download_cover] at h
  | some (Nat.succ n) =>
    cases hg : w.gridsResp (Nat.succ n) d with
    | netErr => simp [download_cover, hg] at h
    | resp status data =>
      by_cases hs : is_http_error status = true
      · simp [download_cover, hg, hs] at h
      · match data with
        | none => simp [download_cover, hg, hs] at h
        | some [] => simp [download_cover, hg, hs] at h
        | some (u :: us) =>
          cases hi : w.imageResp u with
          | netErr => simp [download_cover, hg, hs, hi] at h
          | resp istatus b2 =>
            by_cases his : is_http_error istatus = true
            · simp [download_cover, hg, hs, hi, his] at h
            · cases hmk : w.mkdirErr with
              | some e => simp [download_cover, hg, hs, hi, his, hmk] at h
              | none =>
                cases hwr : w.writeErr with
                | some e => simp [download_cover, hg, hs, hi, his, hmk, hwr] at h
                | none =>
                  simp [download_cover, hg, hs, hi, his, hmk, hwr] at h
                  exact h.1

theorem found_log_mem_search (w : World) (slug : String)
    (h : (search_game_id w slug).1.isSome = true) :
    Event.log ("Found game: " ++ display_name slug) ∈ (search_game_id w slug).2 := by
  cases hs : w.searchResp slug with
  | netErr => simp [search_game_id, hs] at h
  | resp status data =>
    by_cases he : is_http_error status = true
    · simp [search_game_id, hs, he] at h
    · match data with
      | none => simp [search_game_id, hs, he] at h
      | some [] => simp [search_game_id, hs, he] at h
      | some (id :: rest) => simp [search_game_id, hs, he]

/-- Claim C8: the search request URL always embeds the literal
hyphenated slug as the query text, every written file is named with
the literal slug and the jpg extension, and the display-friendly form
(hyphens to spaces, title-cased) appears in the log output. -/
theorem slug_used_literally (w : World) (d cp : String) (fs : Cache) (slug : String) :
    (∀ url, Event.searchCall url ∈ (process_game w d cp fs slug).trace →
      url = STEAMGRIDDB_API_BASE_URL ++ "/search/autocomplete/" ++ slug) ∧
    (∀ p b, Event.fileWrite p b ∈ (process_game w d cp fs slug).trace →
      p = os_path_join cp (slug ++ ".jpg")) ∧
    ((search_game_id w slug).1.isSome = true →
      Event.log ("Found game: " ++ display_name slug) ∈ (search_game_id w slug).2) := by
  refine ⟨?_, ?_, found_log_mem_search w slug⟩
  · intro url hmem
    by_cases hc : cover_exists fs cp slug = true
    · simp [process_game, hc] at hmem
    · simp only [process_game, hc, Bool.false_eq_true, if_false, List.mem_append] at hmem
      rcases hmem with hmem | hmem
      · exact searchCall_mem_search w slug url hmem
      · exact absurd hmem (searchCall_not_mem_download w slug _ d cp fs url)
  · intro p b hmem
    by_cases hc : cover_exists fs cp slug = true
    · simp [process_game, hc] at hmem
    · simp only [process_game, hc, Bool.false_eq_true, if_false, List.mem_append] at hmem
      rcases hmem with hmem | hmem
      · exact absurd hmem (search_game_id_no_write w slug p b)
      · exact fileWrite_mem_download w slug _ d cp fs p b hmem

theorem slug_used_literally_witness :
    Event.searchCall (STEAMGRIDDB_API_BASE_URL ++ "/search/autocomplete/" ++
      "half-life-2") ∈ (process_game wOk "600x900" "/c/" [] "half-life-2").trace ∧
    Event.fileWrite (os_path_join "/c/" ("half-life-2" ++ ".jpg")) "IMGBYTES" ∈
      (process_game wOk "600x900" "/c/" [] "half-life-2").trace ∧
    STEAMGRIDDB_API_BASE_URL ++ "/search/autocomplete/" ++ "half-life-2" =
      STEAMGRIDDB_API_BASE_URL ++ "/search/autocomplete/" ++ "half-life-2" ∧
    os_path_join "/c/" ("half-life-2" ++ ".jpg") =
      os_path_join "/c/" ("half-life-2" ++ ".jpg") :=
  ⟨by decide, by decide,
   (slug_used_literally wOk "600x900" "/c/" [] "half-life-2").1 _ (by decide),
   (slug_used_literally wOk "600x900" "/c/" [] "half-life-2").2.1 _ "IMGBYTES" (by decide)⟩

end Lutris
